import Mathlib

-- Verification of the container-registry v2 HTTP transport layer
-- (docker_http_.py): authentication discovery (ping), credential refresh,
-- bounded retry-on-401, diagnostics extraction, and link-header pagination.
-- Python strings are modelled as Lean Strings (List Char where convenient,
-- over the ASCII fragment exercised by the protocol); machine-level side
-- effects are modelled by explicit state passing, exceptions by Except.

namespace DockerHttp

-- ===== Python string primitives (ASCII fragment of the CPython behavior) =====

/-- Lowercase an ASCII letter, identity elsewhere (fragment of str.lower). -/
def pyToLower (c : Char) : Char :=
  if 'A' ≤ c ∧ c ≤ 'Z' then Char.ofNat (c.toNat + 32) else c

/-- Uppercase an ASCII letter, identity elsewhere (fragment of str.upper). -/
def pyToUpper (c : Char) : Char :=
  if 'a' ≤ c ∧ c ≤ 'z' then Char.ofNat (c.toNat - 32) else c

/-- Python str.capitalize: first character uppercased, the rest lowercased. -/
def pyCapitalize : List Char → List Char
  | [] => []
  | c :: rest => pyToUpper c :: rest.map pyToLower

/-- Python s.split(sep, 1) at the first occurrence of sep: returns the part
before the first sep and the part after it.  Only called when sep occurs. -/
def splitFirstSpace : List Char → List Char × List Char
  | [] => ([], [])
  | c :: rest =>
    if c = ' ' then ([], rest)
    else
      let pr := splitFirstSpace rest
      (c :: pr.1, pr.2)

/-- Python s.split(sep) with a one-character separator; splitting the empty
string yields a single empty field, matching CPython. -/
def pySplitChar (sep : Char) : List Char → List (List Char)
  | [] => [[]]
  | c :: rest =>
    if c = sep then [] :: pySplitChar sep rest
    else
      match pySplitChar sep rest with
      | t :: ts => (c :: t) :: ts
      | [] => [[c]]

/-- Python s.strip(chars) for the single character, double quote: removes all
leading and trailing double-quote characters. -/
def pyStripQuotes (cs : List Char) : List Char :=
  ((cs.dropWhile (· = '"')).reverse.dropWhile (· = '"')).reverse

/-- Truthiness of an optional Python string (None and the empty string are
falsy). -/
def pyTruthy : Option String → Bool
  | none => false
  | some s => s != ""

-- ===== JSON values (the decoded form produced by json.loads) =====

/-- Decoded JSON values.  An obj is the association list of a Python dict
(keys unique, first binding wins on lookup). -/
inductive Json where
  | str (s : String)
  | num (n : Int)
  | bool (b : Bool)
  | null
  | arr (elems : List Json)
  | obj (fields : List (String × Json))

/-- Dict lookup on the fields of a JSON object. -/
def jLookup : List (String × Json) → String → Option Json
  | [], _ => none
  | (k, v) :: rest, key => if k = key then some v else jLookup rest key

/-- Python dict.get on a JSON value: lookup on objects, none elsewhere
(the claims only access fields of objects; a non-dict receiver raises
lazily in Python and is modelled as an absent field here). -/
def jget (j : Json) (key : String) : Option Json :=
  match j with
  | .obj fields => jLookup fields key
  | _ => none

/-- Python truthiness of a JSON value. -/
def jsonTruthy : Json → Bool
  | .str s => s != ""
  | .num n => n != 0
  | .bool b => b
  | .null => false
  | .arr xs => !xs.isEmpty
  | .obj fs => !fs.isEmpty

/-- Python a or b where a is an optional JSON value: keeps a when it is
present and truthy, otherwise yields b. -/
def pyOrJ (a b : Option Json) : Option Json :=
  match a with
  | some v => if jsonTruthy v then some v else b
  | none => b

/-- String content of a JSON value; only string tokens are exercised by the
protocol (a non-string token would raise on concatenation in Python). -/
def jsonStr : Json → String
  | .str s => s
  | _ => ""

-- ===== Diagnostic model (data) =====

/-- Diagnostic wraps one element of the errors array of a registry error
response, keeping the decoded JSON element as the source class keeps the
error dict. -/
structure Diagnostic where
  error : Json

/-- The optional code field of a diagnostic. -/
def Diagnostic.code (d : Diagnostic) : Option Json := jget d.error "code"

/-- The optional message field of a diagnostic. -/
def Diagnostic.message (d : Diagnostic) : Option Json := jget d.error "message"

/-- The optional detail field of a diagnostic. -/
def Diagnostic.detail (d : Diagnostic) : Option Json := jget d.error "detail"

-- ===== Exception taxonomy =====

/-- Python exceptions that escape the transport code.  badState is
BadStateException (the ProtocolStateError of the spec), tokenRefresh is
TokenRefreshException, v2Diagnostic is V2DiagnosticException (the
RegistryDiagnosticError of the spec); attributeError, keyError, typeError,
nameError and jsonDecode are the interpreter-level errors the code can
surface (jsonDecode is the error raised by json.loads on malformed text). -/
inductive PyErr where
  | badState (msg : String)
  | tokenRefresh (msg : String)
  | v2Diagnostic (status : Nat) (diags : List Diagnostic)
  | attributeError (attr : String)
  | keyError (key : String)
  | typeError (msg : String)
  | nameError (name : String)
  | jsonDecode (text : String)

/-- The kind of an exception, with the message payload erased. -/
inductive PyErrKind where
  | badState
  | tokenRefresh
  | v2Diagnostic
  | attributeError
  | keyError
  | typeError
  | nameError
  | jsonDecode
deriving DecidableEq

/-- Forget an exception message, keeping its kind. -/
def PyErr.kind : PyErr → PyErrKind
  | .badState _ => .badState
  | .tokenRefresh _ => .tokenRefresh
  | .v2Diagnostic _ _ => .v2Diagnostic
  | .attributeError _ => .attributeError
  | .keyError _ => .keyError
  | .typeError _ => .typeError
  | .nameError _ => .nameError
  | .jsonDecode _ => .jsonDecode

-- ===== Diagnostic extraction =====

/-- Python iteration over a JSON value: arrays yield their elements, strings
their characters, dicts their keys; other values raise TypeError. -/
def pyIter : Json → Except PyErr (List Json)
  | .arr xs => .ok xs
  | .str s => .ok (s.toList.map (fun c => Json.str (String.mk [c])))
  | .obj fs => .ok (fs.map (fun kv => Json.str kv.1))
  | _ => .error (.typeError "object is not iterable")

/-- The try-block of the diagnostics extraction: decode the body as JSON
(the abstract parse stands for json.loads; none models a parse failure),
read the errors field with default empty list, and build one Diagnostic per
element.  A non-dict top level raises AttributeError on the .get call and a
non-iterable errors value raises TypeError; both land in the except handler
of the caller. -/
def diagnosticsTry (parse : String → Option Json) (content : String) :
    Except PyErr (List Diagnostic) :=
  match parse content with
  | none => .error (.jsonDecode content)
  | some o =>
    match o with
    | .obj fields =>
      match pyIter ((jLookup fields "errors").getD (.arr [])) with
      | .error e => .error e
      | .ok elems => .ok (elems.map Diagnostic.mk)
    | _ => .error (.attributeError "get")

/-- Extract and return the diagnostics from content.  Any failure inside the
try-block degrades to a single UNKNOWN diagnostic carrying the raw body, so
extraction itself is total (never raises).  The upstream utf8 decode step is
modelled away by taking content as already decoded text. -/
def _DiagnosticsFromContent (parse : String → Option Json) (content : String) :
    List Diagnostic :=
  match diagnosticsTry parse content with
  | .ok ds => ds
  | .error _ =>
    [Diagnostic.mk (.obj [("code", .str "UNKNOWN"), ("message", .str content)])]

-- ===== Action constants =====

/-- Action constant pull. -/
def PULL : String := "pull"

/-- Action constant push, which implies pull. -/
def PUSH : String := "push,pull"

/-- DELETE is aliased to PUSH, the read/write ACL. -/
def DELETE : String := PUSH

/-- Action constant catalog. -/
def CATALOG : String := "catalog"

/-- The closed set of recognized actions. -/
def ACTIONS : List String := [PULL, PUSH, DELETE, CATALOG]

/-- Authentication-mode constant for anonymous access (the empty string). -/
def _ANONYMOUS : String := ""

/-- Authentication-mode constant for Basic. -/
def _BASIC : String := "Basic"

/-- Authentication-mode constant for Bearer. -/
def _BEARER : String := "Bearer"

/-- Modelled from the spec: the fixed user-agent string supplied by the
external naming module (docker_name.USER_AGENT, not part of src). -/
def USER_AGENT : String := "containerregistry/client"

-- ===== External collaborators (modelled from the spec) =====

/-- Modelled from the spec: the structured resource name (docker_name, not
part of src) exposes the registry host and a scope string per action. -/
structure NameT where
  registry : String
  scope : String → String

/-- Modelled from the spec: the credential provider capability (docker_creds
and v2_2 docker_creds, not part of src).  Anonymous yields an empty header,
basic yields the caller-supplied encoded header value, bearer yields the
token prefixed with the Bearer scheme. -/
inductive CredProvider where
  | anonymous
  | basic (header : String)
  | bearer (token : Json)

/-- Modelled from the spec: CredentialProvider.Get, the
authorization-header-value-or-empty capability. -/
def CredProvider.Get : CredProvider → String
  | .anonymous => ""
  | .basic h => h
  | .bearer t => "Bearer " ++ jsonStr t

-- ===== Transport state and environment =====

/-- The response metadata of one underlying HTTP call: status plus the two
headers the transport reads (www-authenticate during ping, link during
pagination). -/
structure HttpResp where
  status : Nat
  wwwAuthenticate : Option String := none
  link : Option String := none

/-- The per-instance state of a Transport: the construction inputs plus the
three fields set once by the ping and the current credential, which only
the refresh mutates. -/
structure TransportState where
  name : NameT
  basicCreds : String
  action : String
  authentication : String
  service : String
  realm : String
  creds : CredProvider

-- ===== Credential refresh =====

/-- The URL of the token-exchange request: realm with the urlencoded scope
and service query (percent-encoding of the query values is elided). -/
def refreshUrl (st : TransportState) : String :=
  st.realm ++ "?scope=" ++ st.name.scope st.action ++ "&service=" ++ st.service

/-- The headers of the token-exchange request; Authorization comes from the
original basic credential, never from the current bearer token. -/
def refreshHeaders (st : TransportState) : List (String × String) :=
  [("content-type", "application/json"),
   ("user-agent", USER_AGENT),
   ("Authorization", st.basicCreds)]

/-- Refresh the bearer credential from one token-exchange response (wire is
the status/content pair the realm returned, parse stands for json.loads).
A non-200 status raises TokenRefreshException; the body must decode as a
JSON dict holding a truthy token or access_token, else the malformed
response is fatal.  The credential field is written only on success, as the
final statement of the source function, so the state is returned unchanged
on every error path. -/
def _Refresh (parse : String → Option Json) (wire : HttpResp × String)
    (st : TransportState) : Except PyErr Unit × TransportState :=
  if wire.1.status ≠ 200 then
    (.error (.tokenRefresh
      ("Bad status during token exchange: " ++ toString wire.1.status ++
        "\n" ++ wire.2)), st)
  else
    match parse wire.2 with
    | none => (.error (.jsonDecode wire.2), st)
    | some (.obj fields) =>
      match pyOrJ (jLookup fields "token") (jLookup fields "access_token") with
      | none => (.error (.badState ("Malformed JSON response: " ++ wire.2)), st)
      | some tok => (.ok (), { st with creds := .bearer tok })
    | some _ => (.error (.attributeError "get"), st)

-- ===== Ping =====

/-- The realm/service scan over the comma-separated challenge parameters:
the realm accumulator starts unset (the attribute does not exist yet) and
the service accumulator starts at the registry host; realm= and service=
entries overwrite them, quotes stripped. -/
def scanTokens (registry : String) (tokens : List (List Char)) :
    Option (List Char) × List Char :=
  tokens.foldl
    (fun acc t =>
      if "realm=".toList.isPrefixOf t then
        (some (pyStripQuotes (t.drop 6)), acc.2)
      else if "service=".toList.isPrefixOf t then
        (acc.1, pyStripQuotes (t.drop 8))
      else acc)
    (none, registry.toList)

/-- The tail of the ping after the challenge has been split at its first
space and the scheme capitalized.  An unrecognized scheme is a fatal bad
state.  After the parameter scan the source asserts the realm attribute is
truthy: if the scan never set it, evaluating the assertion argument raises
AttributeError; if it was set to the empty string, the assertion raises
BadStateException. -/
def pingAfterSplit (registry : String) (challenge : String)
    (auth remainder : List Char) : Except PyErr (String × String × String) :=
  if auth = _BASIC.toList ∨ auth = _BEARER.toList then
    match scanTokens registry (pySplitChar ',' remainder) with
    | (none, _) => .error (.attributeError "_realm")
    | (some r, service) =>
      if r = [] then
        .error (.badState
          ("Expected a realm= in www-authenticate header: " ++ challenge))
      else .ok (String.mk auth, String.mk service, String.mk r)
  else
    .error (.badState
      ("Unexpected www-authenticate challenge type: " ++ String.mk auth))

/-- Ping the v2 registry: wire is the status/content pair of the ping
response.  Only 200 and 401 are accepted; 200 selects anonymous mode with
placeholder realm and service, 401 must carry a www-authenticate challenge
containing a space, whose scheme token is capitalized and resolved.
Returns the (authentication, service, realm) triple the source stores in
the instance attributes. -/
def _Ping (name : NameT) (wire : HttpResp × String) :
    Except PyErr (String × String × String) :=
  if wire.1.status = 200 ∨ wire.1.status = 401 then
    if wire.1.status = 200 then .ok (_ANONYMOUS, "none", "none")
    else
      match wire.1.wwwAuthenticate with
      | none => .error (.keyError "www-authenticate")
      | some challenge =>
        if ' ' ∈ challenge.toList then
          let pr := splitFirstSpace challenge.toList
          pingAfterSplit name.registry challenge (pyCapitalize pr.1) pr.2
        else
          .error (.badState
            ("Unexpected www-authenticate header form: " ++ challenge))
  else
    .error (.badState
      ("Unexpected response pinging the registry: " ++ toString wire.1.status ++
        " Body: " ++ (if wire.2 = "" then "<empty>" else wire.2)))

-- ===== Construction =====

/-- The environment of a construction: the ping response, the token-exchange
responses as a function of the outgoing request, and the JSON decoder. -/
structure InitEnv where
  ping : HttpResp × String
  refresh : String → List (String × String) → HttpResp × String
  jsonLoads : String → Option Json

/-- Transport construction: validate the action against the closed set,
ping to establish mode/service/realm, then eagerly establish credentials:
Bearer refreshes once, Basic adopts the caller-supplied credential,
otherwise the anonymous credential is installed.  The second component
counts the token-exchange requests issued. -/
def Transport.init (name : NameT) (basicCreds : String) (action : String)
    (env : InitEnv) : Except PyErr TransportState × Nat :=
  if action ∈ ACTIONS then
    match _Ping name env.ping with
    | .error e => (.error e, 0)
    | .ok (auth, service, realm) =>
      let st : TransportState :=
        { name := name, basicCreds := basicCreds, action := action,
          authentication := auth, service := service, realm := realm,
          creds := .anonymous }
      if auth = _BEARER then
        let rr := _Refresh env.jsonLoads
          (env.refresh (refreshUrl st) (refreshHeaders st)) st
        match rr.1 with
        | .error e => (.error e, 1)
        | .ok _ => (.ok rr.2, 1)
      else if auth = _BASIC then
        (.ok { st with creds := .basic basicCreds }, 0)
      else
        (.ok { st with creds := .anonymous }, 0)
  else
    (.error (.badState
      ("Invalid action supplied to docker_http.Transport: " ++ action)), 0)

-- ===== Authenticated request with bounded retry =====

/-- The default method: GET without a body, PUT with one; an explicitly
falsy method argument (absent or empty) selects the default. -/
def defaultMethod (method body : Option String) : String :=
  match method with
  | some s => if s = "" then (if pyTruthy body then "PUT" else "GET") else s
  | none => if pyTruthy body then "PUT" else "GET"

/-- Python str join with a comma separator. -/
def joinComma : List String → String
  | [] => ""
  | [s] => s
  | s :: rest => s ++ "," ++ joinComma rest

/-- The headers of one attempt: user-agent always; Authorization only when
the current credential yields a non-empty value; content-type only with a
truthy body; Accept only when accepted mimes were supplied; content-length
zero for a body-less POST or PUT. -/
def buildHeaders (st : TransportState) (body contentType : Option String)
    (acceptedMimes : Option (List String)) (method : String) :
    List (String × String) :=
  let hs := [("user-agent", USER_AGENT)]
  let hs := if st.creds.Get ≠ "" then
      hs ++ [("Authorization", st.creds.Get)] else hs
  let hs := if pyTruthy body then
      hs ++ [("content-type",
        (match contentType with
         | some c => if c = "" then "application/json" else c
         | none => "application/json"))]
    else hs
  let hs := match acceptedMimes with
    | some ms => hs ++ [("Accept", joinComma ms)]
    | none => hs
  if (method = "POST" ∨ method = "PUT") ∧ ¬ pyTruthy body then
    hs ++ [("content-length", "0")]
  else hs

/-- The arguments of one Request call, mirroring the source signature;
accepted codes defaults to absent. -/
structure ReqArgs where
  url : String
  accepted_codes : Option (List Nat) := none
  method : Option String := none
  body : Option String := none
  content_type : Option String := none
  accepted_mimes : Option (List String) := none

/-- The environment of a Request call: the underlying HTTP client answers
the n-th attempt of this request (given its url, method, body and headers)
with a response/content pair; token-exchange calls are answered separately
as during construction. -/
structure ReqEnv where
  attempts : Nat → String → String → Option String → List (String × String) →
    HttpResp × String
  refresh : String → List (String × String) → HttpResp × String
  jsonLoads : String → Option Json

/-- The retry loop of Request, iterating over the list of retry flags (the
source iterates for retry_unauthorized in a two-element list).  Each pass
rebuilds the headers from the current credential, issues one underlying
call, and either retries after a refresh (only when the flag is set and the
status is 401) or stops with this response.  Returns the outcome together
with the number of underlying attempts issued and of refreshes performed.
An empty flag list would leave the response variable unbound (NameError);
the source always supplies two flags. -/
def requestLoop (env : ReqEnv) (url method : String)
    (body contentType : Option String) (acceptedMimes : Option (List String)) :
    List Bool → TransportState → Nat → Nat →
    (Except PyErr (HttpResp × String × TransportState)) × Nat × Nat
  | [], _, n, r => (.error (.nameError "resp"), n, r)
  | flag :: rest, st, n, r =>
    let hs := buildHeaders st body contentType acceptedMimes method
    let rc := env.attempts n url method body hs
    if flag ∧ rc.1.status = 401 then
      let rr := _Refresh env.jsonLoads
        (env.refresh (refreshUrl st) (refreshHeaders st)) st
      match rr.1 with
      | .error e => (.error e, n + 1, r + 1)
      | .ok _ =>
        requestLoop env url method body contentType acceptedMimes
          rest rr.2 (n + 1) (r + 1)
    else
      (.ok (rc.1, rc.2, st), n + 1, r)

/-- The acceptance check after the final attempt: membership of the status
in the accepted codes.  When the accepted codes argument was left at its
None default, the membership test itself raises TypeError; a status outside
the set raises V2DiagnosticException carrying the parsed diagnostics. -/
def acceptPhase (parse : String → Option Json) (accepted : Option (List Nat))
    (resp : HttpResp) (content : String) (st : TransportState) :
    Except PyErr (HttpResp × String × TransportState) :=
  match accepted with
  | none => .error (.typeError "argument of type NoneType is not iterable")
  | some codes =>
    if resp.status ∈ codes then .ok (resp, content, st)
    else .error (.v2Diagnostic resp.status (_DiagnosticsFromContent parse content))

/-- One authenticated request: resolve the default method, run the retry
loop over the two flags (retry only on the first pass and only in Bearer
mode), then apply the acceptance check to the final response.  The two
counters (underlying attempts, refreshes) are threaded through. -/
def Transport.Request (env : ReqEnv) (st : TransportState) (a : ReqArgs) :
    (Except PyErr (HttpResp × String × TransportState)) × Nat × Nat :=
  let m := defaultMethod a.method a.body
  let out := requestLoop env a.url m a.body a.content_type a.accepted_mimes
    [st.authentication == _BEARER, false] st 0 0
  match out.1 with
  | .error e => (.error e, out.2)
  | .ok (resp, content, st₁) =>
    (acceptPhase env.jsonLoads a.accepted_codes resp content st₁, out.2)

-- ===== Link header parsing =====

/-- The whitespace class of the regex library (ASCII fragment). -/
def isPySpace (c : Char) : Bool :=
  c == ' ' || c == '\t' || c == '\n' || c == '\x0d' || c == '\x0b' || c == '\x0c'

/-- The literal tail of the link pattern. -/
def relNextLit : List Char := "rel=\"next\"".toList

/-- Matching of the suffix of the pattern after the semicolon: greedy
whitespace then the literal. -/
def afterSemi (cs : List Char) : Bool :=
  relNextLit.isPrefixOf (cs.dropWhile isPySpace)

/-- The greedy one-or-more group of the link pattern: the longest split of
cs as group, then the bracket-semicolon delimiter, then a matching suffix.
The group cannot cross a newline (the dot of the pattern never matches a
newline).  Returns the longest group, possibly empty. -/
def matchTail : List Char → Option (List Char)
  | [] => none
  | c :: rest =>
    if c = '\n' then none
    else
      match matchTail rest with
      | some u => some (c :: u)
      | none =>
        if c = '>' ∧ rest.head? = some ';' ∧ afterSemi rest.tail = true then
          some []
        else none

/-- The full link pattern with its greedy leading dot-star: prefer a match
starting as late as possible (the leading group backtracks from the
longest prefix), require a non-empty URL group, and never cross a newline
with the leading group. -/
def lastMatch : List Char → Option (List Char)
  | [] => none
  | c :: rest =>
    if c = '\n' then none
    else
      match lastMatch rest with
      | some u => some u
      | none =>
        if c = '<' then
          match matchTail rest with
          | some (d :: u) => some (d :: u)
          | _ => none
        else none

/-- Returns the next link from an RFC 5988 link header or none if not
present: a falsy header (absent or empty) yields none, otherwise the regex
match is attempted and its URL group returned. -/
def ParseNextLinkHeader (resp : HttpResp) : Option String :=
  match resp.link with
  | none => none
  | some l =>
    if l = "" then none
    else
      match lastMatch l.toList with
      | some u => some (String.mk u)
      | none => none

-- ===== Pagination =====

/-- The arguments PaginatedRequest forwards to each page (no accepted
mimes in the source signature). -/
structure PagArgs where
  accepted_codes : Option (List Nat) := none
  method : Option String := none
  body : Option String := none
  content_type : Option String := none

/-- The environment of a paginated request: one request environment per
page index. -/
structure PagEnv where
  page : Nat → ReqEnv

/-- The pagination loop: while the next url is truthy, issue one Request,
collect its result, and continue at the link-header url of its response.
The fuel bounds how many pages the caller consumes from the lazy
generator; exhausted fuel models a caller that stops reading. -/
def pagLoop (env : PagEnv) (a : PagArgs) :
    Nat → Nat → Option String → TransportState →
    Except PyErr (List (HttpResp × String))
  | 0, _, _, _ => .ok []
  | _ + 1, _, none, _ => .ok []
  | fuel + 1, k, some u, st =>
    if u = "" then .ok []
    else
      let out := Transport.Request (env.page k) st
        { url := u, accepted_codes := a.accepted_codes, method := a.method,
          body := a.body, content_type := a.content_type,
          accepted_mimes := none }
      match out.1 with
      | .error e => .error e
      | .ok (resp, content, st₁) =>
        match pagLoop env a fuel (k + 1) (ParseNextLinkHeader resp) st₁ with
        | .error e => .error e
        | .ok pages => .ok ((resp, content) :: pages)

/-- Wrapper around Request that follows link headers while they exist,
yielding each page in order. -/
def Transport.PaginatedRequest (env : PagEnv) (st : TransportState)
    (url : String) (a : PagArgs) (fuel : Nat) :
    Except PyErr (List (HttpResp × String)) :=
  pagLoop env a fuel 0 (some url) st

-- ===== Shared helper lemmas =====

/-- Splitting at the first space of a space-free prefix followed by a space
recovers the prefix and the remainder. -/
lemma splitFirstSpace_append (p rem : List Char) (hp : ' ' ∉ p) :
    splitFirstSpace (p ++ ' ' :: rem) = (p, rem) := by
  induction p with
  | nil => simp [splitFirstSpace]
  | cons c cs ih =>
    have hc : c ≠ ' ' := fun h => hp (h ▸ List.mem_cons_self c cs)
    have hcs : ' ' ∉ cs := fun h => hp (List.mem_cons_of_mem c h)
    simp [splitFirstSpace, hc, ih hcs]

/-- The character list underlying a list-built string. -/
lemma toList_mk (l : List Char) : (String.mk l).toList = l := rfl

-- ===== C2 =====

/-- C2: for every valid Action, construction whose ping returns HTTP 200
sets Anonymous mode with placeholder realm and service both none, installs
the anonymous credential whose header value is empty, and issues zero
token-exchange requests. -/
theorem C2_ping200_anonymous (name : NameT) (basicCreds action : String)
    (env : InitEnv) (ha : action ∈ ACTIONS) (h200 : env.ping.1.status = 200) :
    ∃ st, Transport.init name basicCreds action env = (.ok st, 0) ∧
      st.authentication = _ANONYMOUS ∧ st.realm = "none" ∧
      st.service = "none" ∧ st.creds = .anonymous ∧ st.creds.Get = "" := by
  refine ⟨{ name := name, basicCreds := basicCreds, action := action,
            authentication := _ANONYMOUS, service := "none", realm := "none",
            creds := .anonymous }, ?_, rfl, rfl, rfl, rfl, rfl⟩
  simp [Transport.init, _Ping, h200, ha, _ANONYMOUS, _BEARER, _BASIC]

/-- Concrete construction environment whose ping returns 200. -/
def envC2 : InitEnv :=
  { ping := ({ status := 200 }, ""),
    refresh := fun _ _ => ({ status := 200 }, ""),
    jsonLoads := fun _ => none }

/-- Concrete resource name fixture. -/
def nmC2 : NameT := { registry := "registry.example", scope := fun _ => "s" }

/-- C2 witness: the theorem applied to a concrete valid action and 200 ping. -/
theorem C2_ping200_anonymous_witness :
    ∃ st, Transport.init nmC2 "Basic Zm9v" "pull" envC2 = (.ok st, 0) ∧
      st.authentication = _ANONYMOUS ∧ st.realm = "none" ∧
      st.service = "none" ∧ st.creds = .anonymous ∧ st.creds.Get = "" :=
  C2_ping200_anonymous nmC2 "Basic Zm9v" "pull" envC2 (by decide) rfl

-- ===== C4 =====

/-- Concrete resource name fixture for the missing-realm ping. -/
def nmC4 : NameT := { registry := "registry.example", scope := fun _ => "s" }

/-- C4: a 401 ping whose Bearer challenge carries no realm= entry makes the
ping raise AttributeError: the realm attribute is never assigned, so
evaluating the argument of the final state assertion fails before the
intended BadStateException (ProtocolStateError) can be raised.  This
contradicts the assertion the source itself placed for this case. -/
theorem C4_missing_realm_attribute_error :
    _Ping nmC4 ({ status := 401,
                  wwwAuthenticate := some "Bearer service=\"registry.example\"" }, "") =
      .error (.attributeError "_realm") := by
  rfl

-- ===== C6 =====

/-- C6: every token-exchange response with a non-200 status fails with
TokenRefreshException (a kind distinct from the generic request failure
V2DiagnosticException) and returns the transport state unchanged: the
credential field is mutated only after a successful exchange. -/
theorem C6_refresh_non200_unchanged (parse : String → Option Json)
    (wire : HttpResp × String) (st : TransportState)
    (h : wire.1.status ≠ 200) :
    _Refresh parse wire st =
      (.error (.tokenRefresh ("Bad status during token exchange: " ++
        toString wire.1.status ++ "\n" ++ wire.2)), st) := by
  simp [_Refresh, h]

/-- Concrete transport state fixture for refresh claims. -/
def stC6 : TransportState :=
  { name := { registry := "registry.example", scope := fun _ => "s" },
    basicCreds := "Basic Zm9v", action := "pull", authentication := "Bearer",
    service := "registry.example", realm := "https://auth.example/token",
    creds := .bearer (.str "old") }

/-- Concrete non-200 token-exchange response. -/
def wireC6 : HttpResp × String := ({ status := 500 }, "denied")

/-- C6 witness: the theorem applied to a concrete 500 exchange response. -/
theorem C6_refresh_non200_unchanged_witness :
    _Refresh (fun _ => none) wireC6 stC6 =
      (.error (.tokenRefresh ("Bad status during token exchange: " ++
        toString wireC6.1.status ++ "\n" ++ wireC6.2)), stC6) :=
  C6_refresh_non200_unchanged (fun _ => none) wireC6 stC6 (by decide)

-- ===== C7 =====

/-- C7: a 200 token-exchange response whose JSON body is a token field with
value abc, and one whose body is an access_token field with value abc, both
succeed and install the bearer credential for abc, whose header value on
the next request is Bearer abc (both as the Get value and as the
Authorization header of the next attempt); a 200 response whose JSON body
contains neither field fails with the fatal malformed-response
BadStateException. -/
theorem C7_refresh_token_fields (parse : String → Option Json)
    (st : TransportState) (c₁ c₂ c₃ : String) (fields : List (String × Json))
    (h₁ : parse c₁ = some (.obj [("token", .str "abc")]))
    (h₂ : parse c₂ = some (.obj [("access_token", .str "abc")]))
    (h₃ : parse c₃ = some (.obj fields))
    (hft : jLookup fields "token" = none)
    (hfa : jLookup fields "access_token" = none) :
    (_Refresh parse ({ status := 200 }, c₁) st =
        (.ok (), { st with creds := .bearer (.str "abc") }) ∧
      ({ st with creds := CredProvider.bearer (.str "abc") } :
          TransportState).creds.Get = "Bearer abc" ∧
      ("Authorization", "Bearer abc") ∈
        buildHeaders { st with creds := .bearer (.str "abc") }
          none none none "GET") ∧
    _Refresh parse ({ status := 200 }, c₂) st =
      (.ok (), { st with creds := .bearer (.str "abc") }) ∧
    _Refresh parse ({ status := 200 }, c₃) st =
      (.error (.badState ("Malformed JSON response: " ++ c₃)), st) := by
  refine ⟨⟨?_, rfl, ?_⟩, ?_, ?_⟩
  · simp [_Refresh, h₁, pyOrJ, jLookup, jsonTruthy]
  · simp [buildHeaders, CredProvider.Get, jsonStr, pyTruthy]
  · simp [_Refresh, h₂, pyOrJ, jLookup, jsonTruthy]
  · simp [_Refresh, h₃, pyOrJ, hft, hfa]

/-- Concrete JSON decoder fixture distinguishing three bodies. -/
def parseC7 : String → Option Json := fun s =>
  if s = "tokbody" then some (.obj [("token", .str "abc")])
  else if s = "accbody" then some (.obj [("access_token", .str "abc")])
  else some (.obj [("other", .str "x")])

/-- C7 witness: the theorem applied to the three concrete bodies. -/
theorem C7_refresh_token_fields_witness :
    (_Refresh parseC7 ({ status := 200 }, "tokbody") stC6 =
        (.ok (), { stC6 with creds := .bearer (.str "abc") }) ∧
      ({ stC6 with creds := CredProvider.bearer (.str "abc") } :
          TransportState).creds.Get = "Bearer abc" ∧
      ("Authorization", "Bearer abc") ∈
        buildHeaders { stC6 with creds := .bearer (.str "abc") }
          none none none "GET") ∧
    _Refresh parseC7 ({ status := 200 }, "accbody") stC6 =
      (.ok (), { stC6 with creds := .bearer (.str "abc") }) ∧
    _Refresh parseC7 ({ status := 200 }, "zzz") stC6 =
      (.error (.badState ("Malformed JSON response: " ++ "zzz")), stC6) :=
  C7_refresh_token_fields parseC7 stC6 "tokbody" "accbody" "zzz"
    [("other", .str "x")] (by rfl) (by rfl) (by rfl) (by rfl) (by rfl)

-- ===== C8 =====

/-- C8: diagnostic extraction is a total function of the body.  When the
abstract JSON decode fails (parse yields none), the result is exactly one
diagnostic whose code is UNKNOWN and whose message is the raw body.  When
the body decodes to a JSON object whose errors field is an array, the
result is one diagnostic per array element, wrapping that element, with
code, message and detail read directly off it. -/
theorem C8_diagnostics_total (parse : String → Option Json) (content : String) :
    (parse content = none →
      _DiagnosticsFromContent parse content =
        [Diagnostic.mk (.obj [("code", .str "UNKNOWN"),
                              ("message", .str content)])] ∧
      (Diagnostic.mk (.obj [("code", .str "UNKNOWN"),
                            ("message", .str content)])).code =
        some (.str "UNKNOWN") ∧
      (Diagnostic.mk (.obj [("code", .str "UNKNOWN"),
                            ("message", .str content)])).message =
        some (.str content)) ∧
    (∀ fields es, parse content = some (.obj fields) →
      jLookup fields "errors" = some (.arr es) →
      _DiagnosticsFromContent parse content = es.map Diagnostic.mk ∧
      ∀ d, (Diagnostic.mk d).code = jget d "code" ∧
        (Diagnostic.mk d).message = jget d "message" ∧
        (Diagnostic.mk d).detail = jget d "detail") := by
  constructor
  · intro hn
    refine ⟨?_, rfl, rfl⟩
    simp [_DiagnosticsFromContent, diagnosticsTry, hn]
  · intro fields es hf he
    refine ⟨?_, fun d => ⟨rfl, rfl, rfl⟩⟩
    simp [_DiagnosticsFromContent, diagnosticsTry, hf, he, pyIter]

/-- Concrete JSON decoder fixture: one errors-array body, everything else
fails to decode. -/
def parseC8 : String → Option Json := fun s =>
  if s = "errbody" then
    some (.obj [("errors", .arr [.obj [("code", .str "DENIED"),
                                       ("message", .str "access denied"),
                                       ("detail", .str "repo:x")]])])
  else none

/-- C8 witness: the theorem applied to a non-JSON body and to a body with a
one-element errors array. -/
theorem C8_diagnostics_total_witness :
    _DiagnosticsFromContent parseC8 "garbage" =
      [Diagnostic.mk (.obj [("code", .str "UNKNOWN"),
                            ("message", .str "garbage")])] ∧
    _DiagnosticsFromContent parseC8 "errbody" =
      [Diagnostic.mk (.obj [("code", .str "DENIED"),
                            ("message", .str "access denied"),
                            ("detail", .str "repo:x")])] :=
  ⟨((C8_diagnostics_total parseC8 "garbage").1 (by rfl)).1,
    ((C8_diagnostics_total parseC8 "errbody").2
      [("errors", .arr [.obj [("code", .str "DENIED"),
                              ("message", .str "access denied"),
                              ("detail", .str "repo:x")]])]
      [.obj [("code", .str "DENIED"), ("message", .str "access denied"),
             ("detail", .str "repo:x")]] (by rfl) (by rfl)).1⟩

-- ===== C10 =====

/-- A Request whose accepted codes were left at the None default never
returns normally: every control path ends in an exception, because the
final membership test runs against None. -/
lemma request_none_accepted_errors (env : ReqEnv) (st : TransportState)
    (a : ReqArgs) (hn : a.accepted_codes = none) :
    ∃ e, (Transport.Request env st a).1 = Except.error e := by
  unfold Transport.Request
  rcases hout : (requestLoop env a.url (defaultMethod a.method a.body) a.body
      a.content_type a.accepted_mimes
      [st.authentication == _BEARER, false] st 0 0).1 with e | t
  · exact ⟨e, by simp [hout]⟩
  · obtain ⟨resp, content, st₁⟩ := t
    exact ⟨.typeError "argument of type NoneType is not iterable",
      by simp [hout, acceptPhase, hn]⟩

/-- C10: omitting accepted codes (leaving the None default) makes Request
raise on every environment and state, whatever the response statuses: the
acceptance membership test itself fails on None.  Consequently the first
consumed page of a PaginatedRequest with the defaulted accepted codes also
raises.  The accepted-codes parameter is effectively mandatory despite its
default. -/
theorem C10_accepted_codes_mandatory :
    (∀ (env : ReqEnv) (st : TransportState) (a : ReqArgs),
      a.accepted_codes = none →
      ∃ e, (Transport.Request env st a).1 = Except.error e) ∧
    (∀ (env : PagEnv) (st : TransportState) (url : String) (a : PagArgs)
      (fuel : Nat), a.accepted_codes = none → url ≠ "" →
      ∃ e, Transport.PaginatedRequest env st url a (fuel + 1) =
        Except.error e) := by
  refine ⟨request_none_accepted_errors, ?_⟩
  intro env st url a fuel hn hu
  obtain ⟨e, he⟩ := request_none_accepted_errors (env.page 0) st
    { url := url, accepted_codes := a.accepted_codes, method := a.method,
      body := a.body, content_type := a.content_type,
      accepted_mimes := none } (by simpa using hn)
  exact ⟨e, by simp [Transport.PaginatedRequest, pagLoop, hu, he]⟩

/-- Concrete request environment fixture answering every call with 200. -/
def envC10 : ReqEnv :=
  { attempts := fun _ _ _ _ _ => ({ status := 200 }, "body"),
    refresh := fun _ _ => ({ status := 200 }, ""),
    jsonLoads := fun _ => none }

/-- Concrete transport state fixture in anonymous mode. -/
def stC10 : TransportState :=
  { name := { registry := "registry.example", scope := fun _ => "s" },
    basicCreds := "", action := "pull", authentication := _ANONYMOUS,
    service := "none", realm := "none", creds := .anonymous }

/-- Concrete pagination environment fixture. -/
def penvC10 : PagEnv := { page := fun _ => envC10 }

/-- C10 witness: the theorem applied to a concrete environment whose
responses are all 200, with accepted codes left at the default. -/
theorem C10_accepted_codes_mandatory_witness :
    (∃ e, (Transport.Request envC10 stC10 { url := "https://u" }).1 =
      Except.error e) ∧
    ∃ e, Transport.PaginatedRequest penvC10 stC10 "https://u" {} 1 =
      Except.error e :=
  ⟨C10_accepted_codes_mandatory.1 envC10 stC10 { url := "https://u" } rfl,
    C10_accepted_codes_mandatory.2 penvC10 stC10 "https://u" {} 0 rfl
      (by decide)⟩

-- ===== C5 =====

/-- Concrete resource name fixture for the Basic-challenge claims. -/
def nmC5 : NameT := { registry := "registry.example", scope := fun _ => "s" }

/-- Concrete construction environment whose ping returns 401 with a Basic
challenge that carries no realm= parameter. -/
def envC5 : InitEnv :=
  { ping := ({ status := 401,
               wwwAuthenticate := some "Basic Zm9vOmJhcg==" }, ""),
    refresh := fun _ _ => ({ status := 200 }, ""),
    jsonLoads := fun _ => none }

/-- C5 counterexample: contrary to the claim, a Basic challenge is parsed
for parameters, and one without a realm= entry does not set Basic mode with
the caller credential: construction fails (with the unset-realm
AttributeError), so the claim is false at this input. -/
theorem C5_counterexample_basic_no_realm :
    Transport.init nmC5 "Basic dXNlcjpwYXNz" "pull" envC5 =
      (.error (.attributeError "_realm"), 0) := by
  rfl

/-- C5 amended: for a 401 ping whose challenge scheme is Basic, the
comma-separated parameter remainder is scanned exactly as for Bearer.  When
the scan finds no realm= entry construction fails with the unset-realm
AttributeError; when it finds a non-empty realm, construction succeeds with
mode Basic, adopts the caller-supplied credential unchanged, issues no
token exchange, and ignores the rest of the remainder content. -/
theorem C5_amended_basic_scans_params (env : InitEnv) (name : NameT)
    (basicCreds action : String) (rem : List Char) (content : String)
    (ha : action ∈ ACTIONS)
    (hp : env.ping = ({ status := 401,
                        wwwAuthenticate :=
                          some ("Basic " ++ String.mk rem) }, content)) :
    ((scanTokens name.registry (pySplitChar ',' rem)).1 = none →
      Transport.init name basicCreds action env =
        (.error (.attributeError "_realm"), 0)) ∧
    (∀ r svc, scanTokens name.registry (pySplitChar ',' rem) = (some r, svc) →
      r ≠ [] →
      Transport.init name basicCreds action env =
        (.ok { name := name, basicCreds := basicCreds, action := action,
               authentication := "Basic", service := String.mk svc,
               realm := String.mk r, creds := .basic basicCreds }, 0)) := by
  have hping : _Ping name ({ status := 401,
                             wwwAuthenticate :=
                               some ("Basic " ++ String.mk rem) }, content) =
      pingAfterSplit name.registry ("Basic " ++ String.mk rem)
        "Basic".toList rem := rfl
  constructor
  · intro hscan
    have h2 : (scanTokens name.registry (pySplitChar ',' rem)) =
        (none, (scanTokens name.registry (pySplitChar ',' rem)).2) := by
      rw [← hscan]
    simp only [Transport.init, if_pos ha, hp, hping, pingAfterSplit]
    rw [if_pos (Or.inl rfl : "Basic".toList = _BASIC.toList ∨
      "Basic".toList = _BEARER.toList), h2]
  · intro r svc hscan hr
    simp only [Transport.init, if_pos ha, hp, hping, pingAfterSplit]
    rw [if_pos (Or.inl rfl : "Basic".toList = _BASIC.toList ∨
      "Basic".toList = _BEARER.toList), hscan]
    simp only [if_neg hr]
    rw [if_neg (show ¬ (String.mk "Basic".toList = _BEARER) from by decide),
      if_pos (show String.mk "Basic".toList = _BASIC from rfl)]
    rfl

/-- Concrete construction environment whose ping returns 401 with a Basic
challenge that does carry a realm= parameter among others. -/
def envC5b : InitEnv :=
  { ping := ({ status := 401,
               wwwAuthenticate :=
                 some ("Basic " ++ String.mk "foo=1,realm=\"R\",bar=2".toList) },
             ""),
    refresh := fun _ _ => ({ status := 200 }, ""),
    jsonLoads := fun _ => none }

/-- C5 witness: the amended theorem applied to a concrete Basic challenge
with a realm parameter surrounded by unrelated parameters. -/
theorem C5_amended_basic_scans_params_witness :
    Transport.init nmC5 "Basic dXNlcjpwYXNz" "pull" envC5b =
      (.ok { name := nmC5, basicCreds := "Basic dXNlcjpwYXNz",
             action := "pull", authentication := "Basic",
             service := String.mk "registry.example".toList,
             realm := String.mk "R".toList,
             creds := .basic "Basic dXNlcjpwYXNz" }, 0) :=
  (C5_amended_basic_scans_params envC5b nmC5 "Basic dXNlcjpwYXNz" "pull"
      "foo=1,realm=\"R\",bar=2".toList "" (by decide) rfl).2
    "R".toList "registry.example".toList (by decide) (by decide)

-- ===== C3 =====

/-- Two characters that differ only in letter-casing: they agree after
uppercasing and after lowercasing (for ASCII this holds exactly of equal
characters and of upper/lower variants of the same letter). -/
def CharCaseEq (a b : Char) : Prop :=
  pyToUpper a = pyToUpper b ∧ pyToLower a = pyToLower b

instance (a b : Char) : Decidable (CharCaseEq a b) :=
  inferInstanceAs (Decidable (pyToUpper a = pyToUpper b ∧
    pyToLower a = pyToLower b))

/-- Lowercasing maps case-equivalent lists to the same list. -/
lemma mapLower_congr {s₁ s₂ : List Char}
    (h : List.Forall₂ CharCaseEq s₁ s₂) :
    s₁.map pyToLower = s₂.map pyToLower := by
  induction h with
  | nil => rfl
  | cons hc _ ih => simp [hc.2, ih]

/-- Capitalization maps case-equivalent lists to the same list. -/
lemma pyCapitalize_congr {s₁ s₂ : List Char}
    (h : List.Forall₂ CharCaseEq s₁ s₂) :
    pyCapitalize s₁ = pyCapitalize s₂ := by
  cases h with
  | nil => rfl
  | cons hc ht => simp [pyCapitalize, hc.1, mapLower_congr ht]

/-- Forget the message text of a ping outcome, keeping the mode, service
and realm on success and the exception kind on failure (the messages of
state assertions embed the original header text verbatim, casing
included, so the comparison of construction results is on outcomes). -/
def stripPing : Except PyErr (String × String × String) →
    Except PyErrKind (String × String × String)
  | .ok t => .ok t
  | .error e => .error e.kind

/-- Once the challenge is split and the scheme capitalized, the rest of the
ping depends on the challenge text only through assertion messages. -/
lemma stripPing_pingAfterSplit (reg : String) (c₁ c₂ : String)
    (auth rem : List Char) :
    stripPing (pingAfterSplit reg c₁ auth rem) =
      stripPing (pingAfterSplit reg c₂ auth rem) := by
  unfold pingAfterSplit
  split
  · rcases hs : scanTokens reg (pySplitChar ',' rem) with ⟨ro, svc⟩
    cases ro with
    | none => rfl
    | some r =>
      by_cases hr : r = [] <;> simp [hr, stripPing, PyErr.kind]
  · rfl

/-- C3: for a 401 ping, two challenges that differ only in the
letter-casing of their (space-free) scheme token and are otherwise
identical produce the same construction outcome: the same authentication
mode, service and realm on success, and the same error kind on failure
(scheme matching is case-insensitive via capitalize normalization). -/
theorem C3_scheme_case_insensitive (name : NameT) (content : String)
    (sch₁ sch₂ rem : List Char)
    (hcc : List.Forall₂ CharCaseEq sch₁ sch₂)
    (h₁ : ' ' ∉ sch₁) (h₂ : ' ' ∉ sch₂) :
    stripPing (_Ping name ({ status := 401,
                             wwwAuthenticate :=
                               some (String.mk (sch₁ ++ ' ' :: rem)) },
      content)) =
    stripPing (_Ping name ({ status := 401,
                             wwwAuthenticate :=
                               some (String.mk (sch₂ ++ ' ' :: rem)) },
      content)) := by
  have hm₁ : ' ' ∈ sch₁ ++ ' ' :: rem :=
    List.mem_append.mpr (Or.inr (List.mem_cons_self _ _))
  have hm₂ : ' ' ∈ sch₂ ++ ' ' :: rem :=
    List.mem_append.mpr (Or.inr (List.mem_cons_self _ _))
  simp only [_Ping, toList_mk]
  norm_num
  rw [splitFirstSpace_append sch₁ rem h₁,
    splitFirstSpace_append sch₂ rem h₂, pyCapitalize_congr hcc]
  exact stripPing_pingAfterSplit name.registry _ _ _ rem

/-- Concrete resource name fixture for the casing claim. -/
def nmC3 : NameT := { registry := "registry.example", scope := fun _ => "s" }

/-- C3 witness: the theorem applied to the BEARER and bearer casings of the
same concrete challenge. -/
theorem C3_scheme_case_insensitive_witness :
    stripPing (_Ping nmC3 ({ status := 401,
                             wwwAuthenticate :=
                               some (String.mk ("BEARER".toList ++ ' ' ::
                                 "realm=\"https://auth.example/token\",service=\"registry.example\"".toList)) },
      "")) =
    stripPing (_Ping nmC3 ({ status := 401,
                             wwwAuthenticate :=
                               some (String.mk ("bearer".toList ++ ' ' ::
                                 "realm=\"https://auth.example/token\",service=\"registry.example\"".toList)) },
      "")) :=
  C3_scheme_case_insensitive nmC3 "" "BEARER".toList "bearer".toList
    "realm=\"https://auth.example/token\",service=\"registry.example\"".toList
    (List.Forall₂.cons (by decide) (List.Forall₂.cons (by decide)
      (List.Forall₂.cons (by decide) (List.Forall₂.cons (by decide)
        (List.Forall₂.cons (by decide) (List.Forall₂.cons (by decide)
          List.Forall₂.nil))))))
    (by decide) (by decide)

-- ===== C1 =====

/-- The transport state after the refresh triggered by a 401 first attempt. -/
def refreshedState (env : ReqEnv) (st : TransportState) : TransportState :=
  (_Refresh env.jsonLoads (env.refresh (refreshUrl st) (refreshHeaders st))
    st).2

/-- The response of the first underlying attempt of a Request. -/
def attempt0 (env : ReqEnv) (st : TransportState) (a : ReqArgs) :
    HttpResp × String :=
  env.attempts 0 a.url (defaultMethod a.method a.body) a.body
    (buildHeaders st a.body a.content_type a.accepted_mimes
      (defaultMethod a.method a.body))

/-- The response of the reissued second attempt, with headers rebuilt from
the refreshed credential. -/
def attempt1 (env : ReqEnv) (st : TransportState) (a : ReqArgs) :
    HttpResp × String :=
  env.attempts 1 a.url (defaultMethod a.method a.body) a.body
    (buildHeaders (refreshedState env st) a.body a.content_type
      a.accepted_mimes (defaultMethod a.method a.body))

/-- The retry loop issues at most one underlying attempt per retry flag. -/
lemma requestLoop_attempts_le (env : ReqEnv) (url m : String)
    (body ct : Option String) (mimes : Option (List String)) :
    ∀ (flags : List Bool) (st : TransportState) (n r : Nat),
      (requestLoop env url m body ct mimes flags st n r).2.1 ≤
        n + flags.length := by
  intro flags
  induction flags with
  | nil => intro st n r; simp [requestLoop]
  | cons f rest ih =>
    intro st n r
    simp only [requestLoop, List.length_cons]
    split
    · split
      · simp
        try omega
      · exact le_trans (ih _ (n + 1) (r + 1)) (by omega)
    · simp
      try omega

/-- The counters of a Request are those of its retry loop, whatever the
final outcome. -/
lemma Request_counts (env : ReqEnv) (st : TransportState) (a : ReqArgs) :
    (Transport.Request env st a).2 =
      (requestLoop env a.url (defaultMethod a.method a.body) a.body
        a.content_type a.accepted_mimes
        [st.authentication == _BEARER, false] st 0 0).2 := by
  unfold Transport.Request
  rcases h : (requestLoop env a.url (defaultMethod a.method a.body) a.body
      a.content_type a.accepted_mimes
      [st.authentication == _BEARER, false] st 0 0).1 with e | ⟨resp, c, st₁⟩ <;>
    simp [h]

/-- C1 amended: every Request performs at most two underlying attempts
(never a third).  In Bearer mode with a 401 first attempt, exactly one
credential refresh is performed; when that refresh succeeds the identical
request is reissued exactly once and the second attempt outcome is final
(its response goes straight to the acceptance check, whatever its status);
when the refresh fails, its error propagates with one attempt issued and
no reissue.  Outside Bearer mode no retry is ever attempted: exactly one
underlying attempt and zero refreshes, its response final. -/
theorem C1_bounded_retry_amended (env : ReqEnv) (st : TransportState)
    (a : ReqArgs) :
    (Transport.Request env st a).2.1 ≤ 2 ∧
    (st.authentication = _BEARER →
      (∀ u m b hs, (env.attempts 0 u m b hs).1.status = 401) →
      ((∀ u hs, (_Refresh env.jsonLoads (env.refresh u hs) st).1 = .ok ()) →
        Transport.Request env st a =
          (acceptPhase env.jsonLoads a.accepted_codes
            (attempt1 env st a).1 (attempt1 env st a).2
            (refreshedState env st), 2, 1)) ∧
      (∀ e, (∀ u hs, (_Refresh env.jsonLoads (env.refresh u hs) st).1 =
          .error e) →
        Transport.Request env st a = (.error e, 1, 1))) ∧
    (st.authentication ≠ _BEARER →
      Transport.Request env st a =
        (acceptPhase env.jsonLoads a.accepted_codes
          (attempt0 env st a).1 (attempt0 env st a).2 st, 1, 0)) := by
  refine ⟨?_, ?_, ?_⟩
  · rw [Request_counts]
    exact le_trans (requestLoop_attempts_le _ _ _ _ _ _ _ _ _ _) (by simp)
  · intro hb h401
    constructor
    · intro hro
      simp only [Transport.Request, requestLoop, hb, beq_self_eq_true,
        h401, hro, attempt1, refreshedState, attempt0]
      simp
    · intro e hre
      simp only [Transport.Request, requestLoop, hb, beq_self_eq_true,
        h401, hre]
      simp
  · intro hnb
    have hf : (st.authentication == _BEARER) = false :=
      beq_eq_false_iff_ne.mpr hnb
    simp only [Transport.Request, requestLoop, hf, attempt0]
    simp

/-- Concrete Bearer-mode transport state fixture. -/
def stC1 : TransportState :=
  { name := { registry := "registry.example", scope := fun _ => "s" },
    basicCreds := "Basic Zm9v", action := "pull", authentication := "Bearer",
    service := "registry.example", realm := "https://auth.example/token",
    creds := .bearer (.str "old") }

/-- Concrete environment: first attempt 401, second 200, token exchange
succeeds with a fresh token. -/
def envC1good : ReqEnv :=
  { attempts := fun n _ _ _ _ =>
      if n = 0 then ({ status := 401 }, "denied") else ({ status := 200 }, "ok"),
    refresh := fun _ _ => ({ status := 200 }, "rbody"),
    jsonLoads := fun s =>
      if s = "rbody" then some (.obj [("token", .str "abc")]) else none }

/-- Concrete request arguments fixture. -/
def argsC1 : ReqArgs := { url := "https://registry.example/v2/x", accepted_codes := some [200] }

/-- C1 witness: the amended theorem applied to a 401-then-200 environment
with a succeeding refresh: exactly two attempts and one refresh, the second
response final. -/
theorem C1_bounded_retry_amended_witness :
    Transport.Request envC1good stC1 argsC1 =
      (acceptPhase envC1good.jsonLoads argsC1.accepted_codes
        (attempt1 envC1good stC1 argsC1).1 (attempt1 envC1good stC1 argsC1).2
        (refreshedState envC1good stC1), 2, 1) :=
  (((C1_bounded_retry_amended envC1good stC1 argsC1).2.1 rfl
    (fun _ _ _ _ => rfl)).1 (fun _ _ => rfl))

/-- Concrete environment whose token exchange always fails with 500. -/
def envC1bad : ReqEnv :=
  { attempts := fun _ _ _ _ _ => ({ status := 401 }, "denied"),
    refresh := fun _ _ => ({ status := 500 }, "boom"),
    jsonLoads := fun _ => none }

/-- C1 counterexample: in Bearer mode with a 401 first attempt whose
refresh fails, the original claim is false: the request is not reissued at
all (one underlying attempt, not two) because the TokenRefreshException
propagates out of Request before any reissue. -/
theorem C1_counterexample_refresh_failure :
    stC1.authentication = _BEARER ∧
    (envC1bad.attempts 0 "u" "GET" none []).1.status = 401 ∧
    Transport.Request envC1bad stC1 argsC1 =
      (.error (.tokenRefresh ("Bad status during token exchange: " ++
        toString 500 ++ "\n" ++ "boom")), 1, 1) := by
  exact ⟨rfl, rfl, rfl⟩

-- ===== C9 =====

/-- A character list without a newline (the regex dot never crosses one). -/
def NoNl (cs : List Char) : Prop := '\n' ∉ cs

instance (cs : List Char) : Decidable (NoNl cs) :=
  inferInstanceAs (Decidable ('\n' ∉ cs))

/-- A split of cs witnessing the tail of the link pattern at a fixed
position: cs is the URL group, then the bracket-semicolon delimiter, then
whitespace and the literal. -/
def TailSplit (cs u : List Char) : Prop :=
  ∃ t, cs = u ++ '>' :: ';' :: t ∧ NoNl u ∧ afterSemi t = true

/-- A full match of the link pattern inside cs: a newline-free prefix, an
opening bracket, a non-empty newline-free URL group, the delimiter, then
whitespace and the literal. -/
def LinkMatch (cs p u : List Char) : Prop :=
  ∃ t, cs = p ++ '<' :: u ++ '>' :: ';' :: t ∧ u ≠ [] ∧ NoNl p ∧ NoNl u ∧
    afterSemi t = true

/-- Soundness of the URL-group search: a returned group really splits the
input as the tail of the pattern. -/
lemma matchTail_sound :
    ∀ (cs u : List Char), matchTail cs = some u → TailSplit cs u := by
  intro cs
  induction cs with
  | nil => intro u h; simp [matchTail] at h
  | cons c rest ih =>
    intro u h
    simp only [matchTail] at h
    by_cases hnl : c = '\n'
    · simp [hnl] at h
    · rw [if_neg hnl] at h
      rcases hmt : matchTail rest with _ | u₀ <;> rw [hmt] at h
      · by_cases hc : c = '>' ∧ rest.head? = some ';' ∧ afterSemi rest.tail = true
        · rw [if_pos hc] at h
          obtain rfl : u = [] := by injection h with h; exact h.symm
          rcases rest with _ | ⟨c₂, t⟩
          · simp at hc
          · obtain ⟨rfl, hh, haf⟩ := hc
            obtain rfl : c₂ = ';' := by simpa using hh
            exact ⟨t, rfl, by simp [NoNl], by simpa using haf⟩
        · rw [if_neg hc] at h
          exact absurd h (by simp)
      · obtain rfl : u = c :: u₀ := by injection h with h; exact h.symm
        obtain ⟨t, ht, hnlu, haf⟩ := ih u₀ hmt
        refine ⟨t, by rw [ht, List.cons_append], ?_, haf⟩
        intro hm
        rcases List.mem_cons.mp hm with h1 | h2
        · exact hnl h1.symm
        · exact hnlu h2

/-- One-step unfolding of the URL-group search on a cons cell. -/
lemma matchTail_cons (c : Char) (rest : List Char) :
    matchTail (c :: rest) =
      if c = '\n' then none
      else
        match matchTail rest with
        | some u => some (c :: u)
        | none =>
          if c = '>' ∧ rest.head? = some ';' ∧ afterSemi rest.tail = true then
            some []
          else none := rfl

/-- One-step unfolding of the full search on a cons cell. -/
lemma lastMatch_cons (c : Char) (rest : List Char) :
    lastMatch (c :: rest) =
      if c = '\n' then none
      else
        match lastMatch rest with
        | some u => some u
        | none =>
          if c = '<' then
            match matchTail rest with
            | some (d :: u) => some (d :: u)
            | _ => none
          else none := rfl

/-- Completeness and maximality of the URL-group search: whenever some
split of the input matches the tail of the pattern, the search succeeds,
and the group it returns is at least as long (the one-or-more group of the
pattern is greedy). -/
lemma matchTail_complete :
    ∀ (cs u : List Char), TailSplit cs u →
      ∃ v, matchTail cs = some v ∧ u.length ≤ v.length := by
  intro cs
  induction cs with
  | nil =>
    intro u hts
    obtain ⟨t, ht, _, _⟩ := hts
    exact absurd ht (by simp)
  | cons c rest ih =>
    intro u hts
    obtain ⟨t, ht, hnlu, haf⟩ := hts
    rcases u with _ | ⟨d, u2⟩
    · obtain ⟨rfl, rfl⟩ : c = '>' ∧ rest = ';' :: t := by simpa using ht
      rw [matchTail_cons, if_neg (show ('>' : Char) ≠ '\n' by decide)]
      rcases hmt : matchTail (';' :: t) with _ | v
      · exact ⟨[], by simp [hmt, haf], by simp⟩
      · exact ⟨'>' :: v, by simp [hmt], by simp⟩
    · obtain ⟨hcd, hrest⟩ : c = d ∧ rest = u2 ++ '>' :: ';' :: t := by
        simpa using ht
      subst hcd
      have hdnl : c ≠ '\n' := fun hd => hnlu (by
        rw [← hd]; exact List.mem_cons_self c u2)
      have hnlu2 : NoNl u2 := fun hm => hnlu (List.mem_cons_of_mem c hm)
      obtain ⟨v, hv, hlen⟩ := ih u2 ⟨t, hrest, hnlu2, haf⟩
      rw [matchTail_cons, if_neg hdnl, hv]
      exact ⟨c :: v, rfl, by simpa using hlen⟩

/-- Soundness of the full search: a returned URL group comes from a real
match of the pattern inside the input. -/
lemma lastMatch_sound :
    ∀ (cs u : List Char), lastMatch cs = some u → ∃ p, LinkMatch cs p u := by
  intro cs
  induction cs with
  | nil => intro u h; simp [lastMatch] at h
  | cons c rest ih =>
    intro u h
    rw [lastMatch_cons] at h
    by_cases hnl : c = '\n'
    · rw [if_pos hnl] at h
      exact absurd h (by simp)
    · rw [if_neg hnl] at h
      rcases hlm : lastMatch rest with _ | u₀ <;> rw [hlm] at h
      · have h2 : (if c = '<' then
            (match matchTail rest with
             | some (d :: u) => some (d :: u)
             | _ => none) else none) = some u := h
        by_cases hc : c = '<'
        · rw [if_pos hc] at h2
          rcases hmt : matchTail rest with _ | u₁ <;> rw [hmt] at h2
          · exact absurd h2 (by simp)
          · rcases u₁ with _ | ⟨d, u2⟩
            · exact absurd h2 (by simp)
            · have h3 : some (d :: u2) = some u := h2
              obtain rfl : u = d :: u2 := (Option.some.inj h3).symm
              obtain ⟨t, ht, hnlu, haf⟩ := matchTail_sound rest (d :: u2) hmt
              exact ⟨[], t, by rw [hc, ht]; rfl, by simp, by simp [NoNl],
                hnlu, haf⟩
        · rw [if_neg hc] at h2
          exact absurd h2 (by simp)
      · have h2 : some u₀ = some u := h
        obtain rfl : u = u₀ := (Option.some.inj h2).symm
        obtain ⟨p, t, ht, hne, hnlp, hnlu, haf⟩ := ih u hlm
        refine ⟨c :: p, t, by simp [ht], hne, ?_, hnlu, haf⟩
        intro hm
        rcases List.mem_cons.mp hm with h1 | h2
        · exact hnl h1.symm
        · exact hnlp h2

/-- Completeness of the full search: whenever the pattern matches anywhere
in the input, the search succeeds. -/
lemma lastMatch_complete :
    ∀ (cs p u : List Char), LinkMatch cs p u → ∃ v, lastMatch cs = some v := by
  intro cs
  induction cs with
  | nil =>
    intro p u hlk
    obtain ⟨t, ht, _, _, _, _⟩ := hlk
    exact absurd ht (by simp)
  | cons c rest ih =>
    intro p u hlk
    obtain ⟨t, ht, hne, hnlp, hnlu, haf⟩ := hlk
    rcases p with _ | ⟨e, p2⟩
    · obtain ⟨rfl, hrest⟩ : c = '<' ∧ rest = u ++ '>' :: ';' :: t := by
        simpa using ht
      rw [lastMatch_cons, if_neg (show ('<' : Char) ≠ '\n' by decide)]
      rcases hlm : lastMatch rest with _ | v
      · obtain ⟨v, hv, hlen⟩ := matchTail_complete rest u ⟨t, hrest, hnlu, haf⟩
        rcases v with _ | ⟨d, v2⟩
        · rcases u with _ | ⟨e, u2⟩
          · exact absurd rfl hne
          · simp at hlen
        · exact ⟨d :: v2, by simp [hv]⟩
      · exact ⟨v, by simp⟩
    · obtain ⟨hce, hrest⟩ : c = e ∧ rest = p2 ++ '<' :: u ++ '>' :: ';' :: t := by
        simpa using ht
      subst hce
      have hdnl : c ≠ '\n' := fun hd => hnlp (by
        rw [← hd]; exact List.mem_cons_self c p2)
      have hnlp2 : NoNl p2 := fun hm => hnlp (List.mem_cons_of_mem c hm)
      obtain ⟨v, hv⟩ := ih p2 u ⟨t, hrest, hne, hnlp2, hnlu, haf⟩
      exact ⟨v, by rw [lastMatch_cons, if_neg hdnl, hv]⟩

/-- Maximality of the full search: the returned group belongs to the match
whose prefix is longest, so the search selects the last matchable
occurrence (the leading any-character group of the pattern is greedy). -/
lemma lastMatch_greedy :
    ∀ (cs u : List Char), lastMatch cs = some u →
      ∃ p, LinkMatch cs p u ∧
        ∀ p2 u2, LinkMatch cs p2 u2 → p2.length ≤ p.length := by
  intro cs
  induction cs with
  | nil => intro u h; simp [lastMatch] at h
  | cons c rest ih =>
    intro u h
    have hsound := lastMatch_sound (c :: rest) u h
    rw [lastMatch_cons] at h
    by_cases hnl : c = '\n'
    · rw [if_pos hnl] at h
      exact absurd h (by simp)
    · rw [if_neg hnl] at h
      rcases hlm : lastMatch rest with _ | u₀ <;> rw [hlm] at h
      · obtain ⟨p, hp⟩ := hsound
        refine ⟨p, hp, ?_⟩
        intro p2 u2 hm2
        rcases p2 with _ | ⟨e, q⟩
        · simp
        · obtain ⟨t, ht, hne, hnlp, hnlu, haf⟩ := hm2
          obtain ⟨hce, hrest⟩ : c = e ∧
              rest = q ++ '<' :: u2 ++ '>' :: ';' :: t := by simpa using ht
          have hnlq : NoNl q := fun hm => hnlp (List.mem_cons_of_mem _ hm)
          obtain ⟨v, hv⟩ := lastMatch_complete rest q u2
            ⟨t, hrest, hne, hnlq, hnlu, haf⟩
          rw [hlm] at hv
          exact absurd hv (by simp)
      · have h2 : some u₀ = some u := h
        obtain rfl : u = u₀ := (Option.some.inj h2).symm
        obtain ⟨p, hp, hmax⟩ := ih u hlm
        obtain ⟨t, ht, hne, hnlp, hnlu, haf⟩ := hp
        refine ⟨c :: p, ⟨t, by simp [ht], hne, ?_, hnlu, haf⟩,
          ?_⟩
        · intro hm
          rcases List.mem_cons.mp hm with h1 | h2
          · exact hnl h1.symm
          · exact hnlp h2
        · intro p2 u2 hm2
          rcases p2 with _ | ⟨e, q⟩
          · simp
          · obtain ⟨t2, ht2, hne2, hnlp2, hnlu2, haf2⟩ := hm2
            obtain ⟨hce, hrest2⟩ : c = e ∧
                rest = q ++ '<' :: u2 ++ '>' :: ';' :: t2 := by simpa using ht2
            have hnlq : NoNl q := fun hm => hnlp2 (List.mem_cons_of_mem _ hm)
            have hlen := hmax q u2 ⟨t2, hrest2, hne2, hnlq, hnlu2, haf2⟩
            simpa using Nat.succ_le_succ hlen

/-- A response carrying two rel-next entries in its link header. -/
def respC9 : HttpResp :=
  { status := 200, link := some "<u1>; rel=\"next\", <u2>; rel=\"next\"" }

/-- C9 counterexample: on a link header with two rel-next entries the
source regex, whose leading and inner groups are greedy, returns the URL
of the second (last) entry, not the first as the claim states. -/
theorem C9_counterexample_first_occurrence :
    ParseNextLinkHeader respC9 = some "u2" ∧ ("u2" : String) ≠ "u1" := by
  exact ⟨rfl, by decide⟩

/-- C9 amended: an absent link header yields absent; a header in which the
pattern (bracketed non-empty URL, semicolon, whitespace, the rel-next
literal) matches nowhere yields absent; a returned URL always comes from a
real match of the pattern, and from the match whose prefix is longest — the
last matchable occurrence, not the first; and whenever the pattern matches
somewhere, a URL is returned. -/
theorem C9_next_link_greedy (resp : HttpResp) :
    (resp.link = none → ParseNextLinkHeader resp = none) ∧
    (∀ l, resp.link = some l →
      ((∀ p u, ¬ LinkMatch l.toList p u) → ParseNextLinkHeader resp = none) ∧
      (∀ u, ParseNextLinkHeader resp = some u →
        ∃ p v, u = String.mk v ∧ LinkMatch l.toList p v ∧
          ∀ p2 u2, LinkMatch l.toList p2 u2 → p2.length ≤ p.length) ∧
      ((∃ p u, LinkMatch l.toList p u) → ∃ w, ParseNextLinkHeader resp = some w)) := by
  constructor
  · intro hn
    simp [ParseNextLinkHeader, hn]
  · intro l hl
    refine ⟨?_, ?_, ?_⟩
    · intro hno
      simp only [ParseNextLinkHeader, hl]
      by_cases he : l = ""
      · rw [if_pos he]
      · rw [if_neg he]
        rcases hm : lastMatch l.toList with _ | u
        · rfl
        · obtain ⟨p, hp⟩ := lastMatch_sound l.toList u hm
          exact absurd hp (hno p u)
    · intro u hu
      simp only [ParseNextLinkHeader, hl] at hu
      by_cases he : l = ""
      · rw [if_pos he] at hu
        exact absurd hu (by simp)
      · rw [if_neg he] at hu
        rcases hm : lastMatch l.toList with _ | v <;> rw [hm] at hu
        · exact absurd hu (by simp)
        · have h2 : some (String.mk v) = some u := hu
          obtain rfl : u = String.mk v := (Option.some.inj h2).symm
          obtain ⟨p, hp, hmax⟩ := lastMatch_greedy l.toList v hm
          exact ⟨p, v, rfl, hp, hmax⟩
    · intro hex
      obtain ⟨p, u, hp⟩ := hex
      obtain ⟨v, hv⟩ := lastMatch_complete l.toList p u hp
      have he : l ≠ "" := by
        intro he
        obtain ⟨t, ht, _, _, _, _⟩ := hp
        rw [he] at ht
        exact absurd ht (by simp)
      refine ⟨String.mk v, ?_⟩
      simp only [ParseNextLinkHeader, hl, if_neg he]
      rw [hv]

/-- A response carrying a single rel-next entry. -/
def respC9b : HttpResp := { status := 200, link := some "<a>; rel=\"next\"" }

/-- C9 witness: the amended theorem applied to an absent header and to a
concrete single-entry header. -/
theorem C9_next_link_greedy_witness :
    ParseNextLinkHeader { status := 200 } = none ∧
    ∃ w, ParseNextLinkHeader respC9b = some w :=
  ⟨(C9_next_link_greedy { status := 200 }).1 rfl,
    ((C9_next_link_greedy respC9b).2 "<a>; rel=\"next\"" rfl).2.2
      ⟨[], "a".toList, " rel=\"next\"".toList, by decide, by decide,
        by decide, by decide, by decide⟩⟩

end DockerHttp
